import Mathlib

/-!
Verification of the carakube scan-correlate-publish engine against its
specification.  The definitions below are shallow embeddings of:

* the `ClusterGraphBuilder` node/link assembly methods of the cluster
  visualization design document (`add_namespace_nodes`, `add_node_nodes`,
  `add_pod_nodes`, `add_service_nodes`, `add_ingress_nodes`,
  `add_namespace_contains_links`, `add_pod_to_node_links`,
  `add_service_to_pod_links`, `add_ingress_to_service_links`);
* the zod response schemas of `frontend/src/lib/apischema.ts`
  (`ClusterDataSchema` and its node/link/stats components);
* the graph API route handler `frontend/src/app/api/graph/route.ts`;
* the demo page link-to-edge transformation (`newEdges`);
* the incident card category mapping (`getCategory`).

Display-only attributes of graph nodes and links (the `color` strings, node
`capacity`, pod `image`, ingress `hosts`/`tls`, the routes-to `path` field)
are omitted from the embedding: no claim mentions them, and the pod colour
function `_get_pod_color` is not among the sources.
-/

namespace Carakube

/-- A fetched Namespace resource (`list_namespace` item): metadata name and
status phase, plus labels. -/
structure NamespaceRes where
  name : String
  statusPhase : String
  labels : List (String × String)
deriving DecidableEq

/-- A fetched cluster Node resource (`list_node` item).  `ready` captures the
result of `_is_ready`. -/
structure NodeRes where
  name : String
  ready : Bool
  labels : List (String × String)
deriving DecidableEq

/-- A fetched Pod resource (`list_pod_for_all_namespaces` item): namespace,
name, labels, scheduled node name (`spec.node_name`, possibly `None`), and
status phase. -/
structure PodRes where
  ns : String
  name : String
  labels : List (String × String)
  nodeName : Option String
  statusPhase : String
deriving DecidableEq

/-- A fetched Service resource (`list_service_for_all_namespaces` item):
namespace, name, label selector (`spec.selector`, a dict; `[]` models both
`None` and the empty dict, which Python treats identically as falsy), and
service type. -/
structure ServiceRes where
  ns : String
  name : String
  selector : List (String × String)
  svcType : String
deriving DecidableEq

/-- One `path` entry of an Ingress HTTP rule: the path string and the backend
service (`path.backend.service`, `none` when absent). -/
structure HttpPath where
  path : String
  backendService : Option String
deriving DecidableEq

/-- One Ingress rule: host and the optional HTTP path list (`rule.http`). -/
structure IngressRule where
  host : String
  http : Option (List HttpPath)
deriving DecidableEq

/-- A fetched Ingress resource (`list_ingress_for_all_namespaces` item).
`rules = []` models both `None` and an empty rule list (both falsy in the
source's `if not ing.spec.rules` guard). -/
structure IngressRes where
  ns : String
  name : String
  rules : List IngressRule
deriving DecidableEq

/-- The full set of resources fetched in one scan pass. -/
structure Cluster where
  namespaces : List NamespaceRes
  nodes : List NodeRes
  pods : List PodRes
  services : List ServiceRes
  ingresses : List IngressRes
deriving DecidableEq

/-- A graph node as assembled by the builder.  Only the structurally relevant
fields are kept (see the file header); `kind` embeds the source's `"type"`
field (a Lean keyword). -/
structure GNode where
  id : String
  label : String
  kind : String
  ns : Option String
  status : Option String
deriving DecidableEq

/-- A graph link.  `kind` embeds the source's `"type"` field. -/
structure GLink where
  source : String
  target : String
  kind : String
deriving DecidableEq

/-- Namespace node id: `f"ns-{ns.metadata.name}"`. -/
def nsId (n : NamespaceRes) : String := "ns-" ++ n.name

/-- Cluster node id: `f"node-{node.metadata.name}"`. -/
def nodeId (n : NodeRes) : String := "node-" ++ n.name

/-- Pod node id: `f"pod-{pod.metadata.namespace}-{pod.metadata.name}"`. -/
def podId (p : PodRes) : String := "pod-" ++ p.ns ++ "-" ++ p.name

/-- Service node id: `f"svc-{svc.metadata.namespace}-{svc.metadata.name}"`. -/
def svcId (s : ServiceRes) : String := "svc-" ++ s.ns ++ "-" ++ s.name

/-- Ingress node id: `f"ingress-{ing.metadata.namespace}-{ing.metadata.name}"`. -/
def ingressId (i : IngressRes) : String := "ingress-" ++ i.ns ++ "-" ++ i.name

/-- `add_namespace_nodes`: one node per fetched namespace. -/
def add_namespace_nodes (c : Cluster) : List GNode :=
  c.namespaces.map fun n =>
    { id := nsId n, label := n.name, kind := "namespace", ns := none,
      status := some n.statusPhase }

/-- `add_node_nodes`: one node per fetched cluster node, status derived from
readiness. -/
def add_node_nodes (c : Cluster) : List GNode :=
  c.nodes.map fun n =>
    { id := nodeId n, label := n.name, kind := "node", ns := none,
      status := some (if n.ready then "ready" else "not-ready") }

/-- `add_pod_nodes`: one node per fetched pod, status lower-cased. -/
def add_pod_nodes (c : Cluster) : List GNode :=
  c.pods.map fun p =>
    { id := podId p, label := p.name, kind := "pod", ns := some p.ns,
      status := some p.statusPhase.toLower }

/-- `add_service_nodes`: one node per fetched service. -/
def add_service_nodes (c : Cluster) : List GNode :=
  c.services.map fun s =>
    { id := svcId s, label := s.name, kind := "service", ns := some s.ns,
      status := none }

/-- `add_ingress_nodes`: one node per fetched ingress. -/
def add_ingress_nodes (c : Cluster) : List GNode :=
  c.ingresses.map fun i =>
    { id := ingressId i, label := i.name, kind := "ingress", ns := some i.ns,
      status := none }

/-- The assembled node list: the five `add_*_nodes` methods in the design
document's order (§4.1 to §4.5). -/
def buildNodes (c : Cluster) : List GNode :=
  add_namespace_nodes c ++ add_node_nodes c ++ add_pod_nodes c ++
    add_service_nodes c ++ add_ingress_nodes c

/-- `add_namespace_contains_links`: a `contains` link from each pod's
namespace to the pod, then from each service's namespace to the service. -/
def add_namespace_contains_links (c : Cluster) : List GLink :=
  (c.pods.map fun p => ⟨"ns-" ++ p.ns, podId p, "contains"⟩) ++
    (c.services.map fun s => ⟨"ns-" ++ s.ns, svcId s, "contains"⟩)

/-- `add_pod_to_node_links`: a `runs-on` link for each pod whose
`spec.node_name` is truthy (present and non-empty). -/
def add_pod_to_node_links (c : Cluster) : List GLink :=
  c.pods.filterMap fun p =>
    match p.nodeName with
    | none => none
    | some nn => if nn = "" then none else some ⟨podId p, "node-" ++ nn, "runs-on"⟩

/-- Modelled from the spec: the body of `ClusterGraphBuilder._matches_selector`
is not among the sources (only its call site in `add_service_to_pod_links`
is).  Per the spec's selector-match semantics, a pod matches iff every key of
the service selector is present in the pod's labels with an equal value. -/
def matches_selector (labels selector : List (String × String)) : Bool :=
  selector.all fun kv => labels.lookup kv.1 == some kv.2

/-- The namespaced pod listing `list_namespaced_pod(ns)`, modelled as the
fetched pods restricted to that namespace. -/
def list_namespaced_pod (ns : String) (pods : List PodRes) : List PodRes :=
  pods.filter fun p => p.ns == ns

/-- The `exposes` links one service contributes in `add_service_to_pod_links`:
services with a falsy (empty) selector are skipped, otherwise one link per
matching pod of the same namespace. -/
def serviceExposesLinks (s : ServiceRes) (pods : List PodRes) : List GLink :=
  if s.selector.isEmpty then []
  else
    ((list_namespaced_pod s.ns pods).filter fun p =>
        matches_selector p.labels s.selector).map
      fun p => ⟨svcId s, podId p, "exposes"⟩

/-- `add_service_to_pod_links`: the per-service `exposes` links, in service
listing order. -/
def add_service_to_pod_links (c : Cluster) : List GLink :=
  c.services.flatMap fun s => serviceExposesLinks s c.pods

/-- `add_ingress_to_service_links`: for every ingress rule path with a backend
service, a `routes-to` link to the service id formed from the ingress's own
namespace and the backend service name; rules without HTTP paths are skipped. -/
def add_ingress_to_service_links (c : Cluster) : List GLink :=
  c.ingresses.flatMap fun ing =>
    ing.rules.flatMap fun rule =>
      match rule.http with
      | none => []
      | some paths =>
          paths.filterMap fun pa =>
            pa.backendService.map fun svcName =>
              ⟨ingressId ing, "svc-" ++ ing.ns ++ "-" ++ svcName, "routes-to"⟩

/-- The assembled link list: the four link methods in the design document's
order (§5.1 to §5.4). -/
def buildLinks (c : Cluster) : List GLink :=
  add_namespace_contains_links c ++ add_pod_to_node_links c ++
    add_service_to_pod_links c ++ add_ingress_to_service_links c

/-- The node ids present in the assembled graph. -/
def nodeIds (c : Cluster) : List String := (buildNodes c).map GNode.id

/-! ## JSON values and the zod schemas of `frontend/src/lib/apischema.ts`

Each zod schema becomes a boolean validator over `JValue`.  zod's default
object mode accepts (and strips) unknown keys, so an object validates iff
every declared field check passes; `.optional()` accepts an absent key;
`.nullable()` additionally accepts `null`.  A discriminated union is embedded
as the disjunction of its variants, which is acceptance-equivalent because
every variant pins its own discriminant literal. -/

/-- A JSON value. -/
inductive JValue where
  | jnull : JValue
  | jbool : Bool → JValue
  | jnum : Int → JValue
  | jstr : String → JValue
  | jarr : List JValue → JValue
  | jobj : List (String × JValue) → JValue

/-- `z.string()`. -/
def isStr : JValue → Bool
  | .jstr _ => true
  | _ => false

/-- `z.number()`. -/
def isNum : JValue → Bool
  | .jnum _ => true
  | _ => false

/-- `z.boolean()`. -/
def isBool : JValue → Bool
  | .jbool _ => true
  | _ => false

/-- `z.literal(s)` for a string literal. -/
def isLit (s : String) : JValue → Bool
  | .jstr t => t == s
  | _ => false

/-- `z.enum([...])` (also used for unions of string literals). -/
def isEnum (options : List String) : JValue → Bool
  | .jstr t => options.contains t
  | _ => false

/-- `z.any()`. -/
def isAny : JValue → Bool := fun _ => true

/-- `.nullable()`: also accept `null`. -/
def vNullable (v : JValue → Bool) : JValue → Bool
  | .jnull => true
  | j => v j

/-- `z.array(v)`. -/
def vArray (v : JValue → Bool) : JValue → Bool
  | .jarr xs => xs.all v
  | _ => false

/-- `z.record(z.string(), z.string())`. -/
def isRecordStr : JValue → Bool
  | .jobj fs => fs.all fun kv => isStr kv.2
  | _ => false

/-- `z.record(z.string(), z.any())`. -/
def isRecordAny : JValue → Bool
  | .jobj _ => true
  | _ => false

/-- A required object field: present and valid. -/
def reqField (fs : List (String × JValue)) (key : String) (v : JValue → Bool) : Bool :=
  match fs.lookup key with
  | some j => v j
  | none => false

/-- An `.optional()` object field: absent, or present and valid. -/
def optField (fs : List (String × JValue)) (key : String) (v : JValue → Bool) : Bool :=
  match fs.lookup key with
  | some j => v j
  | none => true

/-- `severitySchema`: union of the five severity literals. -/
def severitySchema : JValue → Bool :=
  isEnum ["info", "low", "medium", "high", "critical"]

/-- `privilegedContainerSchema`. -/
def privilegedContainerSchema : JValue → Bool
  | .jobj fs =>
      reqField fs "id" isStr && reqField fs "type" (isLit "privileged_container") &&
      reqField fs "severity" severitySchema && reqField fs "title" isStr &&
      optField fs "container" isStr && optField fs "details" isAny
  | _ => false

/-- `runningAsRootSchema`. -/
def runningAsRootSchema : JValue → Bool
  | .jobj fs =>
      reqField fs "id" isStr && reqField fs "type" (isLit "running_as_root") &&
      reqField fs "severity" severitySchema && reqField fs "title" isStr &&
      optField fs "container" isStr
  | _ => false

/-- `dangerousCapabilitiesSchema`. -/
def dangerousCapabilitiesSchema : JValue → Bool
  | .jobj fs =>
      reqField fs "id" isStr && reqField fs "type" (isLit "dangerous_capabilities") &&
      reqField fs "severity" severitySchema && reqField fs "title" isStr &&
      optField fs "container" isStr
  | _ => false

/-- `hostNetworkSchema`. -/
def hostNetworkSchema : JValue → Bool
  | .jobj fs =>
      reqField fs "id" isStr && reqField fs "type" (isLit "host_network") &&
      reqField fs "severity" severitySchema && reqField fs "title" isStr &&
      optField fs "details" isAny
  | _ => false

/-- `hostPidSchema`. -/
def hostPidSchema : JValue → Bool
  | .jobj fs =>
      reqField fs "id" isStr && reqField fs "type" (isLit "host_pid") &&
      reqField fs "severity" severitySchema && reqField fs "title" isStr &&
      optField fs "details" isAny
  | _ => false

/-- `hostIpcSchema`. -/
def hostIpcSchema : JValue → Bool
  | .jobj fs =>
      reqField fs "id" isStr && reqField fs "type" (isLit "host_ipc") &&
      reqField fs "severity" severitySchema && reqField fs "title" isStr &&
      optField fs "details" isAny
  | _ => false

/-- `hostPathMountSchema`. -/
def hostPathMountSchema : JValue → Bool
  | .jobj fs =>
      reqField fs "id" isStr && reqField fs "type" (isLit "host_path_mount") &&
      reqField fs "severity" severitySchema && reqField fs "title" isStr &&
      optField fs "details" isAny
  | _ => false

/-- `missingResourceLimitsSchema`. -/
def missingResourceLimitsSchema : JValue → Bool
  | .jobj fs =>
      reqField fs "id" isStr && reqField fs "type" (isLit "missing_resource_limits") &&
      reqField fs "severity" severitySchema && reqField fs "title" isStr &&
      optField fs "container" isStr && optField fs "missing_limits" (vArray isStr)
  | _ => false

/-- `automountedSaTokenSchema`. -/
def automountedSaTokenSchema : JValue → Bool
  | .jobj fs =>
      reqField fs "id" isStr && reqField fs "type" (isLit "automounted_sa_token") &&
      reqField fs "severity" severitySchema && reqField fs "title" isStr &&
      optField fs "service_account" isStr
  | _ => false

/-- `defaultServiceAccountSchema`. -/
def defaultServiceAccountSchema : JValue → Bool
  | .jobj fs =>
      reqField fs "id" isStr && reqField fs "type" (isLit "default_serviceaccount") &&
      reqField fs "severity" severitySchema && reqField fs "title" isStr &&
      optField fs "service_account" isStr
  | _ => false

/-- `nodeportServiceSchema`. -/
def nodeportServiceSchema : JValue → Bool
  | .jobj fs =>
      reqField fs "id" isStr && reqField fs "type" (isLit "nodeport_service") &&
      reqField fs "severity" severitySchema && reqField fs "title" isStr &&
      optField fs "service_type" isStr && optField fs "details" isAny
  | _ => false

/-- `unrestrictedLoadbalancerSchema`. -/
def unrestrictedLoadbalancerSchema : JValue → Bool
  | .jobj fs =>
      reqField fs "id" isStr && reqField fs "type" (isLit "unrestricted_loadbalancer") &&
      reqField fs "severity" severitySchema && reqField fs "title" isStr &&
      optField fs "service_type" isStr && optField fs "details" isAny
  | _ => false

/-- `loadbalancerServiceSchema`. -/
def loadbalancerServiceSchema : JValue → Bool
  | .jobj fs =>
      reqField fs "id" isStr && reqField fs "type" (isLit "loadbalancer_service") &&
      reqField fs "severity" severitySchema && reqField fs "title" isStr &&
      optField fs "service_type" isStr && optField fs "details" isAny
  | _ => false

/-- `noNetworkPolicySchema`. -/
def noNetworkPolicySchema : JValue → Bool
  | .jobj fs =>
      reqField fs "id" isStr && reqField fs "type" (isLit "no_network_policy") &&
      reqField fs "severity" severitySchema && reqField fs "title" isStr
  | _ => false

/-- `rbacWildcardSchema`. -/
def rbacWildcardSchema : JValue → Bool
  | .jobj fs =>
      reqField fs "id" isStr && reqField fs "type" (isLit "rbac_wildcard") &&
      reqField fs "severity" severitySchema && reqField fs "title" isStr &&
      optField fs "description" isStr && optField fs "role_name" isStr
  | _ => false

/-- `mutableImageTagSchema`. -/
def mutableImageTagSchema : JValue → Bool
  | .jobj fs =>
      reqField fs "id" isStr && reqField fs "type" (isLit "mutable_image_tag") &&
      reqField fs "severity" severitySchema && reqField fs "title" isStr &&
      optField fs "container" isStr && optField fs "image" isStr
  | _ => false

/-- `untrustedRegistrySchema`. -/
def untrustedRegistrySchema : JValue → Bool
  | .jobj fs =>
      reqField fs "id" isStr && reqField fs "type" (isLit "untrusted_registry") &&
      reqField fs "severity" severitySchema && reqField fs "title" isStr &&
      optField fs "container" isStr && optField fs "image" isStr
  | _ => false

/-- `vulnerabilitySchema`: the 17-variant discriminated union on `type`. -/
def vulnerabilitySchema (j : JValue) : Bool :=
  privilegedContainerSchema j || runningAsRootSchema j ||
  dangerousCapabilitiesSchema j || hostNetworkSchema j || hostPidSchema j ||
  hostIpcSchema j || hostPathMountSchema j || missingResourceLimitsSchema j ||
  automountedSaTokenSchema j || defaultServiceAccountSchema j ||
  nodeportServiceSchema j || unrestrictedLoadbalancerSchema j ||
  loadbalancerServiceSchema j || noNetworkPolicySchema j ||
  rbacWildcardSchema j || mutableImageTagSchema j || untrustedRegistrySchema j

/-- `volumeSchema`. -/
def volumeSchema : JValue → Bool
  | .jobj fs =>
      reqField fs "name" isStr && optField fs "type" (vNullable isStr) &&
      optField fs "source" isRecordAny
  | _ => false

/-- `tolerationSchema`. -/
def tolerationSchema : JValue → Bool
  | .jobj fs =>
      optField fs "key" (vNullable isStr) && optField fs "operator" (vNullable isStr) &&
      optField fs "value" (vNullable isStr) && optField fs "effect" (vNullable isStr) &&
      optField fs "toleration_seconds" (vNullable isNum)
  | _ => false

/-- `securityContextSchema`. -/
def securityContextSchema : JValue → Bool
  | .jobj fs =>
      optField fs "run_as_user" (vNullable isNum) &&
      optField fs "run_as_group" (vNullable isNum) &&
      optField fs "run_as_non_root" (vNullable isBool) &&
      optField fs "fs_group" (vNullable isNum) &&
      optField fs "supplemental_groups" (vNullable (vArray isNum)) &&
      optField fs "se_linux_options" (vNullable isStr)
  | _ => false

/-- `priorityInfoSchema`. -/
def priorityInfoSchema : JValue → Bool
  | .jobj fs =>
      optField fs "priority" (vNullable isNum) &&
      optField fs "priority_class_name" (vNullable isStr)
  | _ => false

/-- `eventSchema`. -/
def eventSchema : JValue → Bool
  | .jobj fs =>
      reqField fs "type" isStr && reqField fs "reason" isStr &&
      reqField fs "message" isStr && optField fs "count" (vNullable isNum) &&
      optField fs "first_timestamp" (vNullable isStr) &&
      optField fs "last_timestamp" (vNullable isStr) &&
      optField fs "source" (vNullable isStr)
  | _ => false

/-- `taintSchema`. -/
def taintSchema : JValue → Bool
  | .jobj fs =>
      reqField fs "key" isStr && optField fs "value" (vNullable isStr) &&
      reqField fs "effect" isStr
  | _ => false

/-- `nodeImageSchema`. -/
def nodeImageSchema : JValue → Bool
  | .jobj fs =>
      reqField fs "names" (vArray isStr) && optField fs "size_bytes" (vNullable isNum)
  | _ => false

/-- `allocatedResourcesSchema`. -/
def allocatedResourcesSchema : JValue → Bool
  | .jobj fs =>
      reqField fs "cpu_requests" isNum && reqField fs "cpu_limits" isNum &&
      reqField fs "memory_requests" isNum && reqField fs "memory_limits" isNum &&
      reqField fs "pods" isNum
  | _ => false

/-- `loadBalancerStatusSchema`. -/
def loadBalancerStatusSchema : JValue → Bool
  | .jobj fs =>
      optField fs "ingress" (vArray fun j =>
        match j with
        | .jobj gs =>
            optField gs "ip" (vNullable isStr) && optField gs "hostname" (vNullable isStr)
        | _ => false)
  | _ => false

/-- `resourceQuantitySchema`. -/
def resourceQuantitySchema : JValue → Bool
  | .jobj fs =>
      optField fs "cpu" (vNullable isStr) && optField fs "memory" (vNullable isStr)
  | _ => false

/-- `containerResourcesSchema`. -/
def containerResourcesSchema : JValue → Bool
  | .jobj fs =>
      optField fs "requests" resourceQuantitySchema &&
      optField fs "limits" resourceQuantitySchema
  | _ => false

/-- `portSchema`. -/
def portSchema : JValue → Bool
  | .jobj fs =>
      optField fs "name" (vNullable isStr) && optField fs "container_port" isNum &&
      optField fs "port" isNum && optField fs "target_port" (vNullable isStr) &&
      optField fs "node_port" (vNullable isNum) && optField fs "protocol" (vNullable isStr)
  | _ => false

/-- `containerSchema`. -/
def containerSchema : JValue → Bool
  | .jobj fs =>
      reqField fs "name" isStr && reqField fs "image" isStr &&
      optField fs "image_pull_policy" (vNullable isStr) &&
      optField fs "ports" (vArray portSchema) &&
      optField fs "resources" containerResourcesSchema
  | _ => false

/-- `containerStateSchema`. -/
def containerStateSchema : JValue → Bool
  | .jobj fs =>
      reqField fs "state" isStr && optField fs "started_at" (vNullable isStr) &&
      optField fs "reason" (vNullable isStr) && optField fs "message" (vNullable isStr) &&
      optField fs "exit_code" (vNullable isNum)
  | _ => false

/-- `containerStatusSchema`. -/
def containerStatusSchema : JValue → Bool
  | .jobj fs =>
      reqField fs "name" isStr && reqField fs "ready" isBool &&
      reqField fs "restart_count" isNum && reqField fs "image" isStr &&
      optField fs "state" containerStateSchema
  | _ => false

/-- `conditionSchema`. -/
def conditionSchema : JValue → Bool
  | .jobj fs =>
      reqField fs "type" isStr && reqField fs "status" isStr &&
      optField fs "reason" (vNullable isStr) && optField fs "message" (vNullable isStr)
  | _ => false

/-- `ownerInfoSchema`. -/
def ownerInfoSchema : JValue → Bool
  | .jobj fs => reqField fs "kind" isStr && reqField fs "name" isStr
  | _ => false

/-- `metricsContainerSchema`. -/
def metricsContainerSchema : JValue → Bool
  | .jobj fs =>
      reqField fs "name" isStr &&
      reqField fs "usage" (fun j =>
        match j with
        | .jobj gs =>
            optField gs "cpu" (vNullable isStr) && optField gs "memory" (vNullable isStr)
        | _ => false)
  | _ => false

/-- `podMetricsSchema`. -/
def podMetricsSchema : JValue → Bool
  | .jobj fs =>
      optField fs "timestamp" (vNullable isStr) && optField fs "window" (vNullable isStr) &&
      optField fs "containers" (vArray metricsContainerSchema)
  | _ => false

/-- `nodeMetricsSchema`. -/
def nodeMetricsSchema : JValue → Bool
  | .jobj fs =>
      optField fs "timestamp" (vNullable isStr) && optField fs "window" (vNullable isStr) &&
      optField fs "usage" (fun j =>
        match j with
        | .jobj gs =>
            optField gs "cpu" (vNullable isStr) && optField gs "memory" (vNullable isStr)
        | _ => false)
  | _ => false

/-- `nodeInfoSchema`. -/
def nodeInfoSchema : JValue → Bool
  | .jobj fs =>
      optField fs "os_image" isStr && optField fs "kernel_version" isStr &&
      optField fs "container_runtime" isStr && optField fs "kubelet_version" isStr &&
      optField fs "architecture" isStr
  | _ => false

/-- `resourceCapacitySchema`. -/
def resourceCapacitySchema : JValue → Bool
  | .jobj fs =>
      optField fs "cpu" (vNullable isStr) && optField fs "memory" (vNullable isStr) &&
      optField fs "pods" (vNullable isStr) &&
      optField fs "ephemeral_storage" (vNullable isStr)
  | _ => false

/-- `endpointAddressSchema`. -/
def endpointAddressSchema : JValue → Bool
  | .jobj fs =>
      reqField fs "ip" isStr && optField fs "hostname" (vNullable isStr) &&
      optField fs "node_name" (vNullable isStr) &&
      optField fs "target_ref" (vNullable fun j =>
        match j with
        | .jobj gs => reqField gs "kind" isStr && reqField gs "name" isStr
        | _ => false)
  | _ => false

/-- `endpointsInfoSchema`. -/
def endpointsInfoSchema : JValue → Bool
  | .jobj fs =>
      reqField fs "ready" isNum && reqField fs "not_ready" isNum &&
      reqField fs "addresses" (vArray endpointAddressSchema)
  | _ => false

/-- `quotaSchema`. -/
def quotaSchema : JValue → Bool
  | .jobj fs =>
      reqField fs "name" isStr && reqField fs "hard" isRecordStr &&
      reqField fs "used" isRecordStr
  | _ => false

/-- `limitRangeItemSchema`. -/
def limitRangeItemSchema : JValue → Bool
  | .jobj fs =>
      reqField fs "type" isStr && optField fs "default" isRecordStr &&
      optField fs "default_request" isRecordStr && optField fs "max" isRecordStr &&
      optField fs "min" isRecordStr
  | _ => false

/-- `limitRangeSchema`. -/
def limitRangeSchema : JValue → Bool
  | .jobj fs =>
      reqField fs "name" isStr && reqField fs "limits" (vArray limitRangeItemSchema)
  | _ => false

/-- `resourceCountSchema`. -/
def resourceCountSchema : JValue → Bool
  | .jobj fs =>
      reqField fs "pods" isNum && reqField fs "services" isNum &&
      reqField fs "deployments" isNum && reqField fs "configmaps" isNum &&
      reqField fs "secrets" isNum
  | _ => false

/-- The `BaseNodeSchema` field checks shared by every node variant. -/
def baseNodeFields (fs : List (String × JValue)) : Bool :=
  reqField fs "id" isStr && reqField fs "label" isStr &&
  optField fs "vulnerabilities" (vArray vulnerabilitySchema)

/-- `NamespaceNodeSchema`. -/
def NamespaceNodeSchema : JValue → Bool
  | .jobj fs =>
      baseNodeFields fs && reqField fs "type" (isLit "namespace") &&
      reqField fs "status" isStr &&
      optField fs "creation_timestamp" (vNullable isStr) &&
      optField fs "resource_quotas" (vArray quotaSchema) &&
      optField fs "limit_ranges" (vArray limitRangeSchema) &&
      optField fs "resource_count" resourceCountSchema &&
      optField fs "labels" isRecordStr && optField fs "annotations" isRecordStr
  | _ => false

/-- `ClusterNodeSchema`. -/
def ClusterNodeSchema : JValue → Bool
  | .jobj fs =>
      baseNodeFields fs && reqField fs "type" (isLit "node") &&
      reqField fs "status" isStr && optField fs "capacity" resourceCapacitySchema &&
      optField fs "allocatable" resourceCapacitySchema &&
      optField fs "conditions" (vArray conditionSchema) &&
      optField fs "node_info" nodeInfoSchema && optField fs "addresses" isRecordStr &&
      optField fs "metrics" (vNullable nodeMetricsSchema) &&
      optField fs "labels" isRecordStr && optField fs "annotations" isRecordStr &&
      optField fs "taints" (vArray taintSchema) &&
      optField fs "images" (vArray nodeImageSchema) &&
      optField fs "allocated_resources" allocatedResourcesSchema
  | _ => false

/-- `PodNodeSchema`. -/
def PodNodeSchema : JValue → Bool
  | .jobj fs =>
      baseNodeFields fs && reqField fs "type" (isLit "pod") &&
      reqField fs "namespace" isStr && reqField fs "status" isStr &&
      optField fs "node_name" (vNullable isStr) &&
      optField fs "pod_ip" (vNullable isStr) && optField fs "host_ip" (vNullable isStr) &&
      optField fs "qos_class" (vNullable isStr) &&
      optField fs "restart_policy" (vNullable isStr) &&
      optField fs "containers" (vArray containerSchema) &&
      optField fs "container_statuses" (vArray containerStatusSchema) &&
      optField fs "conditions" (vArray conditionSchema) &&
      optField fs "owner" (vNullable ownerInfoSchema) &&
      optField fs "metrics" (vNullable podMetricsSchema) &&
      optField fs "creation_timestamp" (vNullable isStr) &&
      optField fs "labels" isRecordStr && optField fs "annotations" isRecordStr &&
      optField fs "volumes" (vArray volumeSchema) &&
      optField fs "tolerations" (vArray tolerationSchema) &&
      optField fs "node_selector" isRecordStr &&
      optField fs "priority" priorityInfoSchema &&
      optField fs "service_account" (vNullable isStr) &&
      optField fs "security_context" securityContextSchema &&
      optField fs "events" (vArray eventSchema)
  | _ => false

/-- `ServiceNodeSchema`. -/
def ServiceNodeSchema : JValue → Bool
  | .jobj fs =>
      baseNodeFields fs && reqField fs "type" (isLit "service") &&
      reqField fs "namespace" isStr && reqField fs "status" isStr &&
      optField fs "cluster_ip" (vNullable isStr) &&
      optField fs "external_ips" (vArray isStr) &&
      optField fs "load_balancer_ip" (vNullable isStr) &&
      optField fs "session_affinity" (vNullable isStr) &&
      optField fs "ports" (vArray portSchema) &&
      optField fs "selectors" isRecordStr &&
      optField fs "endpoints" endpointsInfoSchema &&
      optField fs "labels" isRecordStr && optField fs "annotations" isRecordStr &&
      optField fs "load_balancer_status" loadBalancerStatusSchema
  | _ => false

/-- `NodeSchema`: discriminated union of the four node variants (there is no
ingress variant in `apischema.ts`). -/
def NodeSchema (j : JValue) : Bool :=
  NamespaceNodeSchema j || ClusterNodeSchema j || PodNodeSchema j ||
    ServiceNodeSchema j

/-- `LinkSchema`: source, target and a `type` drawn from the three-element
enum (there is no routes-to member in `apischema.ts`). -/
def LinkSchema : JValue → Bool
  | .jobj fs =>
      reqField fs "source" isStr && reqField fs "target" isStr &&
      reqField fs "type" (isEnum ["contains", "runs-on", "exposes"])
  | _ => false

/-- `StatsSchema`. -/
def StatsSchema : JValue → Bool
  | .jobj fs =>
      reqField fs "total_nodes" isNum && reqField fs "total_links" isNum &&
      reqField fs "node_types" (fun j =>
        match j with
        | .jobj gs =>
            reqField gs "namespace" isNum && reqField gs "node" isNum &&
            reqField gs "pod" isNum && reqField gs "service" isNum
        | _ => false) &&
      reqField fs "link_types" (fun j =>
        match j with
        | .jobj gs =>
            reqField gs "contains" isNum && reqField gs "runs-on" isNum &&
            reqField gs "exposes" isNum
        | _ => false)
  | _ => false

/-- The inline `data` object shared by the success, initializing and empty
response schemas. -/
def clusterDataObjSchema : JValue → Bool
  | .jobj fs =>
      reqField fs "timestamp" isStr && reqField fs "nodes" (vArray NodeSchema) &&
      reqField fs "links" (vArray LinkSchema) && reqField fs "stats" StatsSchema
  | _ => false

/-- `ClusterDataSuccessSchema`. -/
def ClusterDataSuccessSchema : JValue → Bool
  | .jobj fs =>
      reqField fs "status" (isLit "success") && reqField fs "data" clusterDataObjSchema
  | _ => false

/-- `ClusterDataWaitingSchema`. -/
def ClusterDataWaitingSchema : JValue → Bool
  | .jobj fs =>
      reqField fs "status" (isLit "waiting") && reqField fs "message" isStr
  | _ => false

/-- `ClusterDataInitializingSchema`. -/
def ClusterDataInitializingSchema : JValue → Bool
  | .jobj fs =>
      reqField fs "status" (isLit "initializing") && reqField fs "message" isStr &&
      optField fs "data" clusterDataObjSchema
  | _ => false

/-- `ClusterDataEmptySchema`. -/
def ClusterDataEmptySchema : JValue → Bool
  | .jobj fs =>
      reqField fs "status" (isLit "empty") && reqField fs "message" isStr &&
      reqField fs "data" clusterDataObjSchema
  | _ => false

/-- `ClusterDataErrorSchema`: note the payload field is named `error`, not
`message`. -/
def ClusterDataErrorSchema : JValue → Bool
  | .jobj fs =>
      reqField fs "status" (isLit "error") && reqField fs "error" isStr
  | _ => false

/-- `ClusterDataSchema`: discriminated union of the five response variants. -/
def ClusterDataSchema (j : JValue) : Bool :=
  ClusterDataSuccessSchema j || ClusterDataWaitingSchema j ||
  ClusterDataInitializingSchema j || ClusterDataEmptySchema j ||
  ClusterDataErrorSchema j

/-- The `status` string of a snapshot value, when present. -/
def statusOf : JValue → Option String
  | .jobj fs =>
      match fs.lookup "status" with
      | some (.jstr s) => some s
      | _ => none
  | _ => none

/-- Whether a snapshot value carries a string field with the given name. -/
def hasStrField (j : JValue) (key : String) : Bool :=
  match j with
  | .jobj fs =>
      match fs.lookup key with
      | some (.jstr _) => true
      | _ => false
  | _ => false

/-! ## The graph API route handler (`frontend/src/app/api/graph/route.ts`) -/

/-- The outcome of the `fetch(EXTERNAL_API_URL)` call: the promise either
rejects, or resolves to a response carrying `ok`, `status`, `statusText` and
a JSON body. -/
inductive UpstreamResult where
  | rejected : UpstreamResult
  | responded : Bool → Nat → String → JValue → UpstreamResult

/-- A JSON response produced by `NextResponse.json`: body plus HTTP status
(200 when no status option is given). -/
structure ApiResponse where
  body : JValue
  status : Nat

/-- The route handler `GET`: a rejected fetch is caught and answered with a
500 error envelope; a non-ok upstream response is answered with an error
envelope carrying the upstream `statusText` and status code; an ok response
has its JSON body forwarded unchanged with status 200. -/
def graphRouteGET : UpstreamResult → ApiResponse
  | .rejected =>
      ⟨.jobj [("status", .jstr "error"),
              ("message", .jstr "Failed to connect to backend service")], 500⟩
  | .responded ok st stx body =>
      if !ok then
        ⟨.jobj [("status", .jstr "error"), ("message", .jstr stx)], st⟩
      else
        ⟨body, 200⟩

/-! ## The demo page link transformation (`frontend/src/app/demo/page.tsx`) -/

/-- An API link as consumed by the demo page (the parsed `LinkSchema` shape);
`kind` embeds the `type` field. -/
structure ApiLink where
  source : String
  target : String
  kind : String
deriving DecidableEq

/-- A rendered reactflow edge as built by the demo page; `kind` embeds the
`type` field. -/
structure FlowEdge where
  id : String
  source : String
  target : String
  kind : String
deriving DecidableEq

/-- The element transformation inside `newEdges`: id is source and target
joined by a dash, and the edge type is the constant `"smoothstep"` (the API
link's own `type` is not read). -/
def newEdge (l : ApiLink) : FlowEdge :=
  { id := l.source ++ "-" ++ l.target, source := l.source, target := l.target,
    kind := "smoothstep" }

/-- `newEdges`: the demo page's map over the API links. -/
def newEdges (links : List ApiLink) : List FlowEdge :=
  links.map newEdge

/-! ## The incident card category mapping (`IncidentReportCard`, `getCategory`) -/

/-- `getCategory`: maps a finding type tag to its display category, with the
fallback category `"Security"` for anything unrecognised. -/
def getCategory (t : String) : String :=
  if t ∈ ["privileged_container", "running_as_root", "dangerous_capabilities",
          "host_network", "host_pid", "host_ipc", "host_path_mount"] then
    "Container Security"
  else if t = "missing_resource_limits" then
    "Resource Limits"
  else if t ∈ ["automounted_sa_token", "default_serviceaccount"] then
    "ServiceAccount"
  else if t ∈ ["nodeport_service", "unrestricted_loadbalancer",
               "loadbalancer_service", "no_network_policy"] then
    "Network Exposure"
  else if t = "rbac_wildcard" then
    "RBAC"
  else if t ∈ ["mutable_image_tag", "untrusted_registry"] then
    "Image Security"
  else
    "Security"

/-- The 17 finding type tags of the closed `vulnerabilitySchema` union, in
schema order. -/
def findingTags : List String :=
  ["privileged_container", "running_as_root", "dangerous_capabilities",
   "host_network", "host_pid", "host_ipc", "host_path_mount",
   "missing_resource_limits", "automounted_sa_token", "default_serviceaccount",
   "nodeport_service", "unrestricted_loadbalancer", "loadbalancer_service",
   "no_network_policy", "rbac_wildcard", "mutable_image_tag",
   "untrusted_registry"]

/-- The six display categories of the incident card. -/
def displayCategories : List String :=
  ["Container Security", "Resource Limits", "ServiceAccount",
   "Network Exposure", "RBAC", "Image Security"]

/-! ## The RBAC wildcard rule of the SecurityRuleEngine -/

/-- One rule of a fetched ClusterRole: verbs, resources, apiGroups. -/
structure PolicyRule where
  verbs : List String
  resources : List String
  apiGroups : List String
deriving DecidableEq

/-- A security finding as emitted by the rule engine: type tag and severity. -/
structure RuleFinding where
  ftype : String
  severity : String
deriving DecidableEq

/-- Modelled from the spec: the SecurityRuleEngine implementation
(`scan_privileges` of `cluster_scanner.py`) is not among the sources, only
its finding schema (`rbacWildcardSchema`) and documentation are.  Per the
spec's RBAC wildcard policy, a rule with a `"*"` in an axis yields one
`rbac_wildcard` finding per wildcarded axis at severity high, except that a
rule wildcarded on all three axes simultaneously yields a single
`rbac_wildcard` finding escalated to severity critical. -/
def rbacRuleFindings (r : PolicyRule) : List RuleFinding :=
  let wildVerbs := "*" ∈ r.verbs
  let wildResources := "*" ∈ r.resources
  let wildApiGroups := "*" ∈ r.apiGroups
  if wildVerbs ∧ wildResources ∧ wildApiGroups then
    [⟨"rbac_wildcard", "critical"⟩]
  else
    (if wildVerbs then [⟨"rbac_wildcard", "high"⟩] else []) ++
    (if wildResources then [⟨"rbac_wildcard", "high"⟩] else []) ++
    (if wildApiGroups then [⟨"rbac_wildcard", "high"⟩] else [])

/-! ## Theorems -/

/-- C8: the graph API route handler GET always returns a JSON response and
never propagates an exception (it is a total function of the upstream
outcome): a rejected upstream fetch yields the error envelope
`Failed to connect to backend service` with HTTP status 500, a non-ok
upstream response yields an error envelope carrying the upstream statusText
and the upstream status code, and an ok upstream response has its JSON body
forwarded unchanged (with the default status 200). -/
theorem graphRouteGET_spec :
    (graphRouteGET .rejected =
      ⟨.jobj [("status", .jstr "error"),
              ("message", .jstr "Failed to connect to backend service")], 500⟩) ∧
    (∀ st stx body, graphRouteGET (.responded false st stx body) =
      ⟨.jobj [("status", .jstr "error"), ("message", .jstr stx)], st⟩) ∧
    (∀ st stx body, graphRouteGET (.responded true st stx body) = ⟨body, 200⟩) :=
  ⟨rfl, fun _ _ _ => rfl, fun _ _ _ => rfl⟩

/-- C9: the demo page's edge transformation gives every rendered edge the id
`source ++ "-" ++ target` and the constant type `"smoothstep"`, discarding
the API link's own type: two links agreeing on source and target map to
identical edges (identical ids included), whatever their types, so the link
kind is not recoverable from the rendered edge. -/
theorem newEdge_discards_type :
    (∀ l : ApiLink, (newEdge l).id = l.source ++ "-" ++ l.target ∧
      (newEdge l).kind = "smoothstep" ∧ newEdges [l] = [newEdge l]) ∧
    (∀ l₁ l₂ : ApiLink, l₁.source = l₂.source → l₁.target = l₂.target →
      newEdge l₁ = newEdge l₂) := by
  refine ⟨fun l => ⟨rfl, rfl, rfl⟩, fun l₁ l₂ h₁ h₂ => ?_⟩
  cases l₁
  cases l₂
  cases h₁
  cases h₂
  rfl

/-- Witness for C9: an `exposes` link and a `routes-to` link with the same
endpoints are rendered as the same edge, with the dash-joined id. -/
theorem newEdge_discards_type_witness :
    newEdge ⟨"svc-default-nginx", "pod-default-nginx-xyz", "exposes"⟩ =
      newEdge ⟨"svc-default-nginx", "pod-default-nginx-xyz", "routes-to"⟩ ∧
    (newEdge ⟨"svc-default-nginx", "pod-default-nginx-xyz", "exposes"⟩).id =
      "svc-default-nginx-pod-default-nginx-xyz" :=
  ⟨newEdge_discards_type.2 _ _ rfl rfl, by decide⟩

/-- C10: `getCategory` is total over finding type tags: each of the 17 tags
of the closed `vulnerabilitySchema` union maps to one of the six display
categories, and every string outside those 17 tags maps to the fallback
category `"Security"`. -/
theorem getCategory_total :
    (∀ t ∈ findingTags, getCategory t ∈ displayCategories) ∧
    (∀ s : String, s ∉ findingTags → getCategory s = "Security") := by
  refine ⟨by decide, fun s hs => ?_⟩
  simp only [findingTags, List.mem_cons, List.not_mem_nil, or_false] at hs
  push_neg at hs
  obtain ⟨h₁, h₂, h₃, h₄, h₅, h₆, h₇, h₈, h₉, h₁₀, h₁₁, h₁₂, h₁₃, h₁₄, h₁₅,
    h₁₆, h₁₇⟩ := hs
  simp [getCategory, h₁, h₂, h₃, h₄, h₅, h₆, h₇, h₈, h₉, h₁₀, h₁₁, h₁₂, h₁₃,
    h₁₄, h₁₅, h₁₆, h₁₇]

/-- Witness for C10: a tag outside the closed union falls back to
`"Security"`. -/
theorem getCategory_total_witness :
    "cve_scan" ∉ findingTags ∧ getCategory "cve_scan" = "Security" :=
  ⟨by decide, getCategory_total.2 "cve_scan" (by decide)⟩

/-- C7: for a ClusterRole rule wildcarded on verbs, resources and apiGroups
simultaneously, the rule engine emits exactly one `rbac_wildcard` finding at
severity critical; for a rule with only some axes wildcarded it emits one
`rbac_wildcard` finding per wildcarded axis (at severity high). -/
theorem rbacRuleFindings_spec :
    ∀ r : PolicyRule,
      ("*" ∈ r.verbs ∧ "*" ∈ r.resources ∧ "*" ∈ r.apiGroups →
        rbacRuleFindings r = [⟨"rbac_wildcard", "critical"⟩]) ∧
      (¬("*" ∈ r.verbs ∧ "*" ∈ r.resources ∧ "*" ∈ r.apiGroups) →
        (rbacRuleFindings r).length =
          (if "*" ∈ r.verbs then 1 else 0) + (if "*" ∈ r.resources then 1 else 0) +
            (if "*" ∈ r.apiGroups then 1 else 0) ∧
        ∀ f ∈ rbacRuleFindings r, f = ⟨"rbac_wildcard", "high"⟩) := by
  intro r
  by_cases hv : "*" ∈ r.verbs <;> by_cases hr : "*" ∈ r.resources <;>
    by_cases hg : "*" ∈ r.apiGroups <;>
      refine ⟨fun h => ?_, fun h => ?_⟩ <;> simp_all [rbacRuleFindings]

/-- Witness for C7: the spec's scenario, a ClusterRole rule with all three
axes wildcarded, yields the single critical finding; a rule with two
wildcarded axes yields two high findings. -/
theorem rbacRuleFindings_spec_witness :
    rbacRuleFindings ⟨["*"], ["*"], ["*"]⟩ = [⟨"rbac_wildcard", "critical"⟩] ∧
    (rbacRuleFindings ⟨["*"], ["*"], ["get"]⟩).length = 2 :=
  ⟨(rbacRuleFindings_spec ⟨["*"], ["*"], ["*"]⟩).1 (by decide),
    by
      have h := ((rbacRuleFindings_spec ⟨["*"], ["*"], ["get"]⟩).2 (by decide)).1
      simpa using h⟩

/-- A passing required literal field pins down the looked-up value. -/
theorem reqField_lit {fs : List (String × JValue)} {k s : String}
    (h : reqField fs k (isLit s) = true) : fs.lookup k = some (.jstr s) := by
  unfold reqField at h
  cases hl : fs.lookup k with
  | none => simp [hl] at h
  | some j =>
      rw [hl] at h
      cases j with
      | jstr t =>
          simp only [isLit] at h
          rw [eq_of_beq h]
      | jnull => simp [isLit] at h
      | jbool b => simp [isLit] at h
      | jnum n => simp [isLit] at h
      | jarr xs => simp [isLit] at h
      | jobj gs => simp [isLit] at h

/-- A passing required string field yields a looked-up string. -/
theorem reqField_str {fs : List (String × JValue)} {k : String}
    (h : reqField fs k isStr = true) : ∃ s, fs.lookup k = some (.jstr s) := by
  unfold reqField at h
  cases hl : fs.lookup k with
  | none => simp [hl] at h
  | some j =>
      rw [hl] at h
      cases j with
      | jstr t => exact ⟨t, rfl⟩
      | jnull => simp [isStr] at h
      | jbool b => simp [isStr] at h
      | jnum n => simp [isStr] at h
      | jarr xs => simp [isStr] at h
      | jobj gs => simp [isStr] at h

/-- A looked-up string field makes `hasStrField` true. -/
theorem hasStrField_of_lookup {fs : List (String × JValue)} {k s : String}
    (h : fs.lookup k = some (.jstr s)) : hasStrField (.jobj fs) k = true := by
  simp [hasStrField, h]

/-- A looked-up status string determines `statusOf`. -/
theorem statusOf_obj {fs : List (String × JValue)} {s : String}
    (h : fs.lookup "status" = some (.jstr s)) : statusOf (.jobj fs) = some s := by
  simp [statusOf, h]

/-- C5 (amended): every value accepted by `ClusterDataSchema` has a status
among success, waiting, initializing, empty and error; the waiting,
initializing and empty variants carry a string field `message`; the error
variant carries a string field `error` instead of `message`. -/
theorem clusterData_status_fields :
    ∀ j, ClusterDataSchema j = true →
      (∃ s, statusOf j = some s ∧
        s ∈ ["success", "waiting", "initializing", "empty", "error"]) ∧
      ((statusOf j = some "waiting" ∨ statusOf j = some "initializing" ∨
          statusOf j = some "empty") → hasStrField j "message" = true) ∧
      (statusOf j = some "error" → hasStrField j "error" = true) := by
  intro j hj
  cases j with
  | jobj fs =>
      simp only [ClusterDataSchema, Bool.or_eq_true] at hj
      rcases hj with ⟨⟨⟨h | h⟩ | h⟩ | h⟩ | h
      · simp only [ClusterDataSuccessSchema, Bool.and_eq_true] at h
        have hs := statusOf_obj (reqField_lit h.1)
        refine ⟨⟨"success", hs, by decide⟩, fun hc => ?_, fun hc => ?_⟩
        · rw [hs] at hc
          rcases hc with hc | hc | hc <;> exact absurd hc (by decide)
        · rw [hs] at hc
          exact absurd hc (by decide)
      · simp only [ClusterDataWaitingSchema, Bool.and_eq_true] at h
        have hs := statusOf_obj (reqField_lit h.1)
        obtain ⟨m, hm⟩ := reqField_str h.2
        refine ⟨⟨"waiting", hs, by decide⟩,
          fun _ => hasStrField_of_lookup hm, fun hc => ?_⟩
        rw [hs] at hc
        exact absurd hc (by decide)
      · simp only [ClusterDataInitializingSchema, Bool.and_eq_true] at h
        have hs := statusOf_obj (reqField_lit h.1.1)
        obtain ⟨m, hm⟩ := reqField_str h.1.2
        refine ⟨⟨"initializing", hs, by decide⟩,
          fun _ => hasStrField_of_lookup hm, fun hc => ?_⟩
        rw [hs] at hc
        exact absurd hc (by decide)
      · simp only [ClusterDataEmptySchema, Bool.and_eq_true] at h
        have hs := statusOf_obj (reqField_lit h.1.1)
        obtain ⟨m, hm⟩ := reqField_str h.1.2
        refine ⟨⟨"empty", hs, by decide⟩,
          fun _ => hasStrField_of_lookup hm, fun hc => ?_⟩
        rw [hs] at hc
        exact absurd hc (by decide)
      · simp only [ClusterDataErrorSchema, Bool.and_eq_true] at h
        have hs := statusOf_obj (reqField_lit h.1)
        obtain ⟨m, hm⟩ := reqField_str h.2
        refine ⟨⟨"error", hs, by decide⟩, fun hc => ?_,
          fun _ => hasStrField_of_lookup hm⟩
        rw [hs] at hc
        rcases hc with hc | hc | hc <;> exact absurd hc (by decide)
  | jnull => simp [ClusterDataSchema, ClusterDataSuccessSchema,
      ClusterDataWaitingSchema, ClusterDataInitializingSchema,
      ClusterDataEmptySchema, ClusterDataErrorSchema] at hj
  | jbool b => simp [ClusterDataSchema, ClusterDataSuccessSchema,
      ClusterDataWaitingSchema, ClusterDataInitializingSchema,
      ClusterDataEmptySchema, ClusterDataErrorSchema] at hj
  | jnum n => simp [ClusterDataSchema, ClusterDataSuccessSchema,
      ClusterDataWaitingSchema, ClusterDataInitializingSchema,
      ClusterDataEmptySchema, ClusterDataErrorSchema] at hj
  | jstr s => simp [ClusterDataSchema, ClusterDataSuccessSchema,
      ClusterDataWaitingSchema, ClusterDataInitializingSchema,
      ClusterDataEmptySchema, ClusterDataErrorSchema] at hj
  | jarr xs => simp [ClusterDataSchema, ClusterDataSuccessSchema,
      ClusterDataWaitingSchema, ClusterDataInitializingSchema,
      ClusterDataEmptySchema, ClusterDataErrorSchema] at hj

/-- Witness for C5 (amended): a concrete accepted waiting snapshot, checked
through the theorem. -/
theorem clusterData_status_fields_witness :
    hasStrField (.jobj [("status", .jstr "waiting"),
      ("message", .jstr "no scan yet")]) "message" = true :=
  (clusterData_status_fields
      (.jobj [("status", .jstr "waiting"), ("message", .jstr "no scan yet")])
      (by decide)).2.1 (Or.inl (by decide))

/-- Counterexample for C5 as stated: the error snapshot is accepted by
`ClusterDataSchema`, its status is not success, yet it carries no string
field `message` (its payload field is named `error`). -/
theorem clusterData_error_lacks_message :
    ClusterDataSchema (.jobj [("status", .jstr "error"),
        ("error", .jstr "upstream unavailable")]) = true ∧
    statusOf (.jobj [("status", .jstr "error"),
        ("error", .jstr "upstream unavailable")]) = some "error" ∧
    hasStrField (.jobj [("status", .jstr "error"),
        ("error", .jstr "upstream unavailable")]) "message" = false := by
  decide

/-- A routes-to link as the operator's `add_ingress_to_service_links` emits
it, in JSON form. -/
def routesToLinkVal : JValue :=
  .jobj [("source", .jstr "ingress-default-web"),
         ("target", .jstr "svc-default-web"),
         ("type", .jstr "routes-to")]

/-- An ingress node as the operator's `add_ingress_nodes` emits it, in JSON
form (structural fields only). -/
def ingressNodeVal : JValue :=
  .jobj [("id", .jstr "ingress-default-web"), ("label", .jstr "web"),
         ("type", .jstr "ingress"), ("namespace", .jstr "default"),
         ("status", .jstr "active")]

/-- A well-formed stats object for a one-link snapshot. -/
def statsOneLinkVal : JValue :=
  .jobj [("total_nodes", .jnum 0), ("total_links", .jnum 1),
         ("node_types", .jobj [("namespace", .jnum 0), ("node", .jnum 0),
            ("pod", .jnum 0), ("service", .jnum 0)]),
         ("link_types", .jobj [("contains", .jnum 0), ("runs-on", .jnum 0),
            ("exposes", .jnum 1)])]

/-- A success snapshot whose only link is the routes-to link. -/
def snapshotWithRoutesTo : JValue :=
  .jobj [("status", .jstr "success"),
         ("data", .jobj [("timestamp", .jstr "2025-11-22T15:30:45Z"),
            ("nodes", .jarr []), ("links", .jarr [routesToLinkVal]),
            ("stats", statsOneLinkVal)])]

/-- C6: the frontend schemas reject what the claim (and the repository's own
e2e expectations and ingress emitters) say is valid: `NodeSchema` has no
ingress variant, so an ingress node is rejected; `LinkSchema`'s type enum
lacks routes-to, so a routes-to link is rejected, and so is any success
snapshot containing one — while the same link with type `contains` is
accepted. -/
theorem schema_rejects_ingress_and_routesTo :
    NodeSchema ingressNodeVal = false ∧
    LinkSchema routesToLinkVal = false ∧
    ClusterDataSchema snapshotWithRoutesTo = false ∧
    LinkSchema (.jobj [("source", .jstr "ingress-default-web"),
      ("target", .jstr "svc-default-web"), ("type", .jstr "contains")]) = true := by
  decide

/-! ## ID derivation (C2) -/

/-- A fetched resource of any of the five kinds. -/
inductive KRes where
  | nsK : NamespaceRes → KRes
  | nodeK : NodeRes → KRes
  | podK : PodRes → KRes
  | svcK : ServiceRes → KRes
  | ingK : IngressRes → KRes
deriving DecidableEq

/-- The node id derived for a fetched resource (the five id formulas of the
builder). -/
def resId : KRes → String
  | .nsK n => nsId n
  | .nodeK n => nodeId n
  | .podK p => podId p
  | .svcK s => svcId s
  | .ingK i => ingressId i

/-- The kind tag of a fetched resource. -/
def resKind : KRes → String
  | .nsK _ => "namespace"
  | .nodeK _ => "node"
  | .podK _ => "pod"
  | .svcK _ => "service"
  | .ingK _ => "ingress"

/-- The namespace of a fetched resource (empty for cluster-scoped kinds). -/
def resNs : KRes → String
  | .nsK _ => ""
  | .nodeK _ => ""
  | .podK p => p.ns
  | .svcK s => s.ns
  | .ingK i => i.ns

/-- The metadata name of a fetched resource. -/
def resName : KRes → String
  | .nsK n => n.name
  | .nodeK n => n.name
  | .podK p => p.name
  | .svcK s => s.name
  | .ingK i => i.name

theorem ns_lit_data : ("ns-" : String).data = ['n', 's', '-'] := rfl

theorem node_lit_data : ("node-" : String).data = ['n', 'o', 'd', 'e', '-'] := rfl

theorem pod_lit_data : ("pod-" : String).data = ['p', 'o', 'd', '-'] := rfl

theorem svc_lit_data : ("svc-" : String).data = ['s', 'v', 'c', '-'] := rfl

theorem ingress_lit_data :
    ("ingress-" : String).data = ['i', 'n', 'g', 'r', 'e', 's', 's', '-'] := rfl

theorem dash_lit_data : ("-" : String).data = ['-'] := rfl

/-- Splitting at an unambiguous separator: if neither left part contains the
dash, a dash-joined concatenation determines both parts. -/
theorem hyphen_split :
    ∀ (a c : List Char) {b d : List Char}, '-' ∉ a → '-' ∉ c →
      a ++ '-' :: b = c ++ '-' :: d → a = c ∧ b = d := by
  intro a
  induction a with
  | nil =>
      intro c b d _ hc h
      cases c with
      | nil => simpa using h
      | cons y ys =>
          simp only [List.nil_append, List.cons_append, List.cons.injEq] at h
          cases h.1
          exact absurd (List.mem_cons_self _ _) hc
  | cons x xs ih =>
      intro c b d ha hc h
      cases c with
      | nil =>
          simp only [List.cons_append, List.nil_append, List.cons.injEq] at h
          cases h.1
          exact absurd (List.mem_cons_self _ _) ha
      | cons y ys =>
          simp only [List.cons_append, List.cons.injEq] at h
          obtain ⟨hxy, hrest⟩ := h
          have ha2 : '-' ∉ xs := fun hm => ha (List.mem_cons_of_mem _ hm)
          have hc2 : '-' ∉ ys := fun hm => hc (List.mem_cons_of_mem _ hm)
          obtain ⟨h1, h2⟩ := ih ys ha2 hc2 hrest
          exact ⟨by rw [hxy, h1], h2⟩

/-- C2 (amended): the id derivation is injective on resource identities
provided namespace names contain no hyphen: two fetched resources whose
namespaces are hyphen-free receive the same id only if they agree on kind,
namespace and name.  (Without the proviso the derivation is not injective,
see the counterexample.) -/
theorem resId_inj :
    ∀ r s : KRes, '-' ∉ (resNs r).data → '-' ∉ (resNs s).data →
      resId r = resId s →
      resKind r = resKind s ∧ resNs r = resNs s ∧ resName r = resName s := by
  intro r s hr hs h
  have hd := congrArg String.data h
  cases r <;> cases s <;>
    simp only [resNs] at hr hs <;>
    simp [resId, nsId, nodeId, podId, svcId, ingressId, String.data_append,
      ns_lit_data, node_lit_data, pod_lit_data, svc_lit_data, ingress_lit_data,
      dash_lit_data, List.append_assoc] at hd
  case nsK.nsK => exact ⟨rfl, rfl, String.ext hd⟩
  case nodeK.nodeK => exact ⟨rfl, rfl, String.ext hd⟩
  case podK.podK =>
      obtain ⟨h1, h2⟩ := hyphen_split _ _ hr hs hd
      exact ⟨rfl, String.ext h1, String.ext h2⟩
  case svcK.svcK =>
      obtain ⟨h1, h2⟩ := hyphen_split _ _ hr hs hd
      exact ⟨rfl, String.ext h1, String.ext h2⟩
  case ingK.ingK =>
      obtain ⟨h1, h2⟩ := hyphen_split _ _ hr hs hd
      exact ⟨rfl, String.ext h1, String.ext h2⟩

/-- Witness for C2 (amended): two pods of namespace `a` differing in name get
different ids, by the injectivity theorem. -/
theorem resId_inj_witness :
    resId (.podK ⟨"a", "x", [], none, ""⟩) ≠ resId (.podK ⟨"a", "y", [], none, ""⟩) :=
  fun h =>
    absurd (resId_inj (.podK ⟨"a", "x", [], none, ""⟩)
        (.podK ⟨"a", "y", [], none, ""⟩) (by decide) (by decide) h).2.2
      (by decide)

/-- Counterexample for C2 as stated: the derivation is not injective on
distinct resources in general — the pod `c` of namespace `a-b` and the pod
`b-c` of namespace `a` are distinct resources yet share the id
`pod-a-b-c`. -/
theorem podId_collision :
    podId ⟨"a-b", "c", [], none, ""⟩ = podId ⟨"a", "b-c", [], none, ""⟩ ∧
    podId ⟨"a-b", "c", [], none, ""⟩ = "pod-a-b-c" ∧
    (⟨"a-b", "c", [], none, ""⟩ : PodRes) ≠ ⟨"a", "b-c", [], none, ""⟩ := by
  decide

/-! ## Edge emission order (C4) -/

/-- Lexicographic (codepoint) order on character lists, the standard string
order. -/
def charListLt : List Char → List Char → Bool
  | [], [] => false
  | [], _ :: _ => true
  | _ :: _, [] => false
  | c :: cs, d :: ds =>
      if c.toNat < d.toNat then true
      else if c = d then charListLt cs ds
      else false

/-- Lexicographic order on strings. -/
def strLt (a b : String) : Prop := charListLt a.data b.data = true

instance : DecidableRel strLt := fun a b =>
  inferInstanceAs (Decidable (charListLt a.data b.data = true))

/-- The lexicographic order on the `(source, target, kind)` triple that the
spec claims the edge list is sorted by. -/
def linkLE (a b : GLink) : Prop :=
  strLt a.source b.source ∨
    (a.source = b.source ∧
      (strLt a.target b.target ∨
        (a.target = b.target ∧ (strLt a.kind b.kind ∨ a.kind = b.kind))))

instance : DecidableRel linkLE := fun a b => by
  unfold linkLE
  infer_instance

/-- The rank of an edge kind in the builder's emission order. -/
def kindRank : String → Nat
  | "contains" => 0
  | "runs-on" => 1
  | "exposes" => 2
  | "routes-to" => 3
  | _ => 4

/-- Every namespace-containment link has kind `contains`. -/
theorem kind_mem_contains {c : Cluster} {l : GLink}
    (h : l ∈ add_namespace_contains_links c) : l.kind = "contains" := by
  simp only [add_namespace_contains_links, List.mem_append, List.mem_map] at h
  rcases h with ⟨p, _, rfl⟩ | ⟨s, _, rfl⟩ <;> rfl

/-- Every scheduling link has kind `runs-on`. -/
theorem kind_mem_runson {c : Cluster} {l : GLink}
    (h : l ∈ add_pod_to_node_links c) : l.kind = "runs-on" := by
  simp only [add_pod_to_node_links, List.mem_filterMap] at h
  obtain ⟨p, _, hf⟩ := h
  cases hnn : p.nodeName with
  | none => rw [hnn] at hf; simp at hf
  | some nn =>
      rw [hnn] at hf
      by_cases he : nn = ""
      · simp [he] at hf
      · simp only [he, if_false, Option.some.injEq] at hf
        rw [← hf]

/-- Every exposure link has kind `exposes`. -/
theorem kind_mem_exposes {c : Cluster} {l : GLink}
    (h : l ∈ add_service_to_pod_links c) : l.kind = "exposes" := by
  simp only [add_service_to_pod_links, List.mem_flatMap] at h
  obtain ⟨s, _, hl⟩ := h
  unfold serviceExposesLinks at hl
  by_cases he : s.selector.isEmpty
  · simp [he] at hl
  · simp only [he, Bool.false_eq_true, if_false, List.mem_map] at hl
    obtain ⟨p, _, rfl⟩ := hl
    rfl

/-- Every routing link has kind `routes-to`. -/
theorem kind_mem_routesto {c : Cluster} {l : GLink}
    (h : l ∈ add_ingress_to_service_links c) : l.kind = "routes-to" := by
  simp only [add_ingress_to_service_links, List.mem_flatMap] at h
  obtain ⟨ing, _, h⟩ := h
  obtain ⟨rule, _, h⟩ := h
  cases hh : rule.http with
  | none => rw [hh] at h; simp at h
  | some paths =>
      rw [hh] at h
      simp only [List.mem_filterMap] at h
      obtain ⟨pa, _, hf⟩ := h
      cases hb : pa.backendService with
      | none => rw [hb] at hf; simp at hf
      | some sn =>
          rw [hb] at hf
          injection hf with hf
          rw [← hf]

/-- A kind-constant link list is pairwise ordered under `kindRank`. -/
theorem pairwise_of_const {ls : List GLink} {r : String}
    (h : ∀ l ∈ ls, l.kind = r) :
    ls.Pairwise (fun a b => kindRank a.kind ≤ kindRank b.kind) := by
  induction ls with
  | nil => exact List.Pairwise.nil
  | cons x xs ih =>
      refine List.Pairwise.cons (fun b hb => ?_)
        (ih fun l hl => h l (List.mem_cons_of_mem _ hl))
      rw [h x (List.mem_cons_self _ _), h b (List.mem_cons_of_mem _ hb)]

/-- C4 (amended): the assembled edge list is not sorted by
`(source, target, kind)`; it is grouped by edge kind in the builder's fixed
category order contains, runs-on, exposes, routes-to, and the pipeline is a
pure function of the fetched resources, so identical fetched resource sets
produce identical edge lists. -/
theorem buildLinks_kind_grouped :
    (∀ c : Cluster,
      (buildLinks c).Pairwise (fun a b => kindRank a.kind ≤ kindRank b.kind)) ∧
    (∀ c₁ c₂ : Cluster, c₁ = c₂ → buildLinks c₁ = buildLinks c₂) := by
  constructor
  · intro c
    unfold buildLinks
    rw [List.pairwise_append]
    refine ⟨?_, pairwise_of_const fun l h => kind_mem_routesto h, ?_⟩
    · rw [List.pairwise_append]
      refine ⟨?_, pairwise_of_const fun l h => kind_mem_exposes h, ?_⟩
      · rw [List.pairwise_append]
        refine ⟨pairwise_of_const fun l h => kind_mem_contains h,
                pairwise_of_const fun l h => kind_mem_runson h, ?_⟩
        intro a ha b hb
        rw [kind_mem_contains ha, kind_mem_runson hb]
        decide
      · intro a ha b hb
        rw [kind_mem_exposes hb]
        rcases List.mem_append.mp ha with h | h
        · rw [kind_mem_contains h]; decide
        · rw [kind_mem_runson h]; decide
    · intro a ha b hb
      rw [kind_mem_routesto hb]
      rcases List.mem_append.mp ha with h | h
      · rcases List.mem_append.mp h with h2 | h2
        · rw [kind_mem_contains h2]; decide
        · rw [kind_mem_runson h2]; decide
      · rw [kind_mem_exposes h]; decide
  · intro c₁ c₂ h
    rw [h]

/-- A two-resource cluster whose emitted edge list is not sorted by the
`(source, target, kind)` triple: the pod lives in namespace `b`, the service
in namespace `a`, and the builder emits all pod containment links before all
service containment links. -/
def c4Cluster : Cluster :=
  ⟨[], [], [⟨"b", "p", [], none, "Running"⟩], [⟨"a", "s", [], "ClusterIP"⟩], []⟩

/-- Witness for C4 (amended), via the determinism conjunct at a concrete
cluster. -/
theorem buildLinks_kind_grouped_witness :
    buildLinks c4Cluster = buildLinks c4Cluster :=
  buildLinks_kind_grouped.2 c4Cluster c4Cluster rfl

/-- Counterexample for C4 as stated: the edge list of the assembled graph for
`c4Cluster` is `ns-b → pod-b-p` followed by `ns-a → svc-a-s`, which is not
sorted by `(source, target, kind)`. -/
theorem buildLinks_not_sorted :
    buildLinks c4Cluster =
      [⟨"ns-b", "pod-b-p", "contains"⟩, ⟨"ns-a", "svc-a-s", "contains"⟩] ∧
    ¬ (buildLinks c4Cluster).Pairwise linkLE := by
  constructor
  · decide
  · decide

/-! ## Selector matching and exposes edges (C3) -/

/-- C3: a service with a falsy (empty) selector yields no exposes links, and
for a service with a non-empty selector, a link is emitted exactly for the
pods of the same namespace whose labels contain every selector key with an
equal value (extra pod labels are irrelevant), one `exposes` link per
matching pod. -/
theorem serviceExposes_spec :
    (∀ (s : ServiceRes) (pods : List PodRes), s.selector = [] →
      serviceExposesLinks s pods = []) ∧
    (∀ (s : ServiceRes) (pods : List PodRes) (l : GLink), s.selector ≠ [] →
      (l ∈ serviceExposesLinks s pods ↔
        ∃ p ∈ pods, p.ns = s.ns ∧
          (∀ kv ∈ s.selector, p.labels.lookup kv.1 = some kv.2) ∧
          l = ⟨svcId s, podId p, "exposes"⟩)) := by
  constructor
  · intro s pods hsel
    unfold serviceExposesLinks
    rw [if_pos (by rw [hsel]; rfl)]
  · intro s pods l hsel
    unfold serviceExposesLinks
    rw [if_neg (by simpa using hsel)]
    constructor
    · intro hl
      simp only [List.mem_map, List.mem_filter, list_namespaced_pod] at hl
      obtain ⟨p, ⟨⟨hp, hns⟩, hmatch⟩, rfl⟩ := hl
      refine ⟨p, hp, by simpa using hns, fun kv hkv => ?_, rfl⟩
      unfold matches_selector at hmatch
      have := List.all_eq_true.mp hmatch kv hkv
      simpa using this
    · rintro ⟨p, hp, hns, hmatch, rfl⟩
      simp only [List.mem_map, List.mem_filter, list_namespaced_pod]
      refine ⟨p, ⟨⟨hp, by simpa using hns⟩, ?_⟩, rfl⟩
      unfold matches_selector
      rw [List.all_eq_true]
      intro kv hkv
      simpa using hmatch kv hkv

/-- Witness for C3: the spec's scenario.  A service selecting `app = x`
exposes the pod labelled `app = x, tier = web` (extra label irrelevant) but
not the pods labelled `app = y` or with no labels, and a service with an
empty selector yields no links at all. -/
theorem serviceExposes_spec_witness :
    (⟨"svc-default-nginx-svc", "pod-default-p1", "exposes"⟩ : GLink) ∈
      serviceExposesLinks ⟨"default", "nginx-svc", [("app", "x")], "ClusterIP"⟩
        [⟨"default", "p1", [("app", "x"), ("tier", "web")], none, "Running"⟩,
         ⟨"default", "p2", [("app", "y")], none, "Running"⟩,
         ⟨"default", "p3", [], none, "Running"⟩] ∧
    (¬ ∃ p ∈ [⟨"default", "p1", [("app", "x"), ("tier", "web")], none, "Running"⟩,
         ⟨"default", "p2", [("app", "y")], none, "Running"⟩,
         (⟨"default", "p3", [], none, "Running"⟩ : PodRes)], p.ns = "default" ∧
          (∀ kv ∈ [("app", "x")], p.labels.lookup kv.1 = some kv.2) ∧
          (⟨"svc-default-nginx-svc", "pod-default-p2", "exposes"⟩ : GLink) =
            ⟨"svc-default-nginx-svc", podId p, "exposes"⟩) ∧
    serviceExposesLinks ⟨"default", "headless", [], "ClusterIP"⟩
        [⟨"default", "p1", [("app", "x"), ("tier", "web")], none, "Running"⟩] = [] :=
  ⟨(serviceExposes_spec.2 _ _ _ (by decide)).mpr (by decide),
   by decide,
   serviceExposes_spec.1 _ _ rfl⟩

/-! ## Edge referential integrity (C1) -/

/-- Every fetched namespace contributes its id to the node list. -/
theorem mem_nodeIds_ns {c : Cluster} {n : NamespaceRes} (h : n ∈ c.namespaces) :
    nsId n ∈ nodeIds c := by
  simp only [nodeIds, buildNodes, List.map_append, List.mem_append,
    add_namespace_nodes, List.map_map, List.mem_map]
  exact Or.inl (Or.inl (Or.inl (Or.inl ⟨n, h, rfl⟩)))

/-- Every fetched cluster node contributes its id to the node list. -/
theorem mem_nodeIds_node {c : Cluster} {n : NodeRes} (h : n ∈ c.nodes) :
    nodeId n ∈ nodeIds c := by
  simp only [nodeIds, buildNodes, List.map_append, List.mem_append,
    add_node_nodes, List.map_map, List.mem_map]
  exact Or.inl (Or.inl (Or.inl (Or.inr ⟨n, h, rfl⟩)))

/-- Every fetched pod contributes its id to the node list. -/
theorem mem_nodeIds_pod {c : Cluster} {p : PodRes} (h : p ∈ c.pods) :
    podId p ∈ nodeIds c := by
  simp only [nodeIds, buildNodes, List.map_append, List.mem_append,
    add_pod_nodes, List.map_map, List.mem_map]
  exact Or.inl (Or.inl (Or.inr ⟨p, h, rfl⟩))

/-- Every fetched service contributes its id to the node list. -/
theorem mem_nodeIds_svc {c : Cluster} {s : ServiceRes} (h : s ∈ c.services) :
    svcId s ∈ nodeIds c := by
  simp only [nodeIds, buildNodes, List.map_append, List.mem_append,
    add_service_nodes, List.map_map, List.mem_map]
  exact Or.inl (Or.inr ⟨s, h, rfl⟩)

/-- Every fetched ingress contributes its id to the node list. -/
theorem mem_nodeIds_ing {c : Cluster} {i : IngressRes} (h : i ∈ c.ingresses) :
    ingressId i ∈ nodeIds c := by
  simp only [nodeIds, buildNodes, List.map_append, List.mem_append,
    add_ingress_nodes, List.map_map, List.mem_map]
  exact Or.inr ⟨i, h, rfl⟩

/-- C1 (amended): conditional edge referential integrity.  Provided that
every pod's namespace and every service's namespace occur among the fetched
namespaces, every non-empty scheduled node name occurs among the fetched
cluster nodes, and every ingress backend names a fetched service of the
ingress's own namespace, both endpoints of every assembled edge are ids of
nodes of the same graph.  (The builder itself performs no such existence
check, see the counterexample.) -/
theorem buildLinks_referential_integrity :
    ∀ c : Cluster,
      (∀ p ∈ c.pods, (∃ n ∈ c.namespaces, n.name = p.ns) ∧
        ∀ nn ∈ p.nodeName.toList, nn = "" ∨ ∃ m ∈ c.nodes, m.name = nn) →
      (∀ s ∈ c.services, ∃ n ∈ c.namespaces, n.name = s.ns) →
      (∀ i ∈ c.ingresses, ∀ rule ∈ i.rules, ∀ lp ∈ rule.http.toList,
        ∀ pa ∈ lp, ∀ sn ∈ pa.backendService.toList,
          ∃ s ∈ c.services, s.ns = i.ns ∧ s.name = sn) →
      ∀ l ∈ buildLinks c, l.source ∈ nodeIds c ∧ l.target ∈ nodeIds c := by
  intro c hpods hsvcs hings l hl
  rcases List.mem_append.mp hl with hl | hl
  case _ =>
    -- contains, runs-on, exposes block
    rcases List.mem_append.mp hl with hl | hl
    case _ =>
      rcases List.mem_append.mp hl with hl | hl
      case _ =>
        -- contains links
        simp only [add_namespace_contains_links, List.mem_append,
          List.mem_map] at hl
        rcases hl with ⟨p, hp, rfl⟩ | ⟨s, hs, rfl⟩
        · obtain ⟨n, hn, hname⟩ := (hpods p hp).1
          refine ⟨?_, mem_nodeIds_pod hp⟩
          have := mem_nodeIds_ns hn
          rw [nsId, hname] at this
          exact this
        · obtain ⟨n, hn, hname⟩ := hsvcs s hs
          refine ⟨?_, mem_nodeIds_svc hs⟩
          have := mem_nodeIds_ns hn
          rw [nsId, hname] at this
          exact this
      case _ =>
        -- runs-on links
        simp only [add_pod_to_node_links, List.mem_filterMap] at hl
        obtain ⟨p, hp, hf⟩ := hl
        cases hnn : p.nodeName with
        | none => rw [hnn] at hf; simp at hf
        | some nn =>
            rw [hnn] at hf
            by_cases he : nn = ""
            · simp [he] at hf
            · simp only [he, if_false, Option.some.injEq] at hf
              subst hf
              refine ⟨mem_nodeIds_pod hp, ?_⟩
              have hmem : nn ∈ p.nodeName.toList := by rw [hnn]; simp
              rcases (hpods p hp).2 nn hmem with h0 | ⟨m, hm, hname⟩
              · exact absurd h0 he
              · have := mem_nodeIds_node hm
                rw [nodeId, hname] at this
                exact this
    case _ =>
      -- exposes links
      simp only [add_service_to_pod_links, List.mem_flatMap] at hl
      obtain ⟨s, hs, hl⟩ := hl
      unfold serviceExposesLinks at hl
      by_cases he : s.selector.isEmpty
      · simp [he] at hl
      · simp only [he, Bool.false_eq_true, if_false, List.mem_map,
          List.mem_filter, list_namespaced_pod] at hl
        obtain ⟨p, ⟨⟨hp, _⟩, _⟩, rfl⟩ := hl
        exact ⟨mem_nodeIds_svc hs, mem_nodeIds_pod hp⟩
  case _ =>
    -- routes-to links
    simp only [add_ingress_to_service_links, List.mem_flatMap] at hl
    obtain ⟨ing, hing, hl⟩ := hl
    obtain ⟨rule, hrule, hl⟩ := hl
    cases hh : rule.http with
    | none => rw [hh] at hl; simp at hl
    | some lp =>
        rw [hh] at hl
        simp only [List.mem_filterMap] at hl
        obtain ⟨pa, hpa, hf⟩ := hl
        cases hb : pa.backendService with
        | none => rw [hb] at hf; simp at hf
        | some sn =>
            rw [hb] at hf
            injection hf with hf
            subst hf
            refine ⟨mem_nodeIds_ing hing, ?_⟩
            have hlp : lp ∈ rule.http.toList := by rw [hh]; simp
            have hsn : sn ∈ pa.backendService.toList := by rw [hb]; simp
            obtain ⟨s, hsvc, hns, hname⟩ := hings ing hing rule hrule lp hlp pa hpa sn hsn
            have := mem_nodeIds_svc hsvc
            rw [svcId, hns, hname] at this
            exact this

/-- A healthy one-of-each cluster used to witness conditional referential
integrity. -/
def c1GoodCluster : Cluster :=
  ⟨[⟨"default", "Active", []⟩], [⟨"w", true, []⟩],
   [⟨"default", "nginx", [("app", "nginx")], some "w", "Running"⟩],
   [⟨"default", "nginx-svc", [("app", "nginx")], "ClusterIP"⟩],
   [⟨"default", "ing", [⟨"example.com", some [⟨"/", some "nginx-svc"⟩]⟩]⟩]⟩

/-- Witness for C1 (amended): on the healthy cluster the hypotheses hold, and
the routes-to edge emitted for the ingress backend resolves at both ends. -/
theorem buildLinks_referential_integrity_witness :
    (⟨"ingress-default-ing", "svc-default-nginx-svc", "routes-to"⟩ : GLink).source
        ∈ nodeIds c1GoodCluster ∧
    (⟨"ingress-default-ing", "svc-default-nginx-svc", "routes-to"⟩ : GLink).target
        ∈ nodeIds c1GoodCluster :=
  buildLinks_referential_integrity c1GoodCluster (by decide) (by decide) (by decide)
    ⟨"ingress-default-ing", "svc-default-nginx-svc", "routes-to"⟩ (by decide)

/-- A cluster whose only resource is an ingress routing to a service that was
never fetched. -/
def c1DanglingCluster : Cluster :=
  ⟨[], [], [], [], [⟨"d", "i", [⟨"h", some [⟨"/", some "missing"⟩]⟩]⟩]⟩

/-- Counterexample for C1 as stated: the builder emits a routes-to edge whose
target `svc-d-missing` is not the id of any node of the assembled graph —
the backend service named by the ingress does not exist. -/
theorem buildLinks_dangling_routesTo :
    buildLinks c1DanglingCluster =
      [⟨"ingress-d-i", "svc-d-missing", "routes-to"⟩] ∧
    nodeIds c1DanglingCluster = ["ingress-d-i"] ∧
    ¬ (∀ l ∈ buildLinks c1DanglingCluster,
        l.source ∈ nodeIds c1DanglingCluster ∧
        l.target ∈ nodeIds c1DanglingCluster) := by
  decide

end Carakube

